import Mathlib

/-!
Shallow embedding of the `solana-mpl-core` instruction gateway.

The repository is a Solana program with three instructions
(`CreateNftV1`, `UpdateNftV1`, `TransferNftV1`).  Each instruction binds a
fixed-arity ordered account list onto named roles, running capability
checks (writable / signer / owning-program / exact-identity) in
declaration order, and then forwards the validated request to the
external `mpl_core` asset protocol via a CPI builder.

The account-binding code (`src/instructions/*.rs`) and the entry point
(`src/lib.rs`, `src/processor.rs`) are embedded from the source.  The
`utils` submodules (`account_check.rs`, `optional_account.rs`,
`process.rs`) are declared in `src/utils/mod.rs` but their files are not
part of the provided sources, so the check combinators they export are
modelled from the specification (each such definition carries a
`Modelled from the spec:` doc comment).
-/

set_option maxHeartbeats 1000000

namespace MplCoreGateway

/-- Modelled from the spec: program addresses are opaque identities; we
abstract 32-byte public keys as natural numbers.  The well-known
owning-runtime (system) program identity (spec §6 "Identifiers"). -/
def systemProgramId : Nat := 1

/-- Modelled from the spec: the well-known asset-protocol (`mpl_core`)
program identity (spec §6 "Identifiers"). -/
def mplCoreProgramId : Nat := 2

/-- Modelled from the spec: the placeholder/default address callers use
for deliberately-absent optional roles (spec §6 "Account-list
contract"); the default (zero) address. -/
def placeholderId : Nat := 0

/-- An account reference as presented by the runtime: identity (key),
owning-program identity, signer flag, writable flag, and an
uninterpreted lamports/data-size view (spec §3 "Account Reference",
matching the fields used by `AccountInfo` in the source). -/
structure Account where
  key : Nat
  owner : Nat
  is_signer : Bool
  is_writable : Bool
  lamports : Nat
  data_len : Nat
  deriving DecidableEq, Repr

/-- Error taxonomy of the gateway (spec §7): decode failure, arity
mismatch (`ProgramError::NotEnoughAccountKeys` in the source), and the
per-check capability violations named in spec §4.1. -/
inductive ProgramError where
  | NotEnoughAccountKeys : ProgramError
  | NotWritable : ProgramError
  | NotSigner : ProgramError
  | InvalidProgramOwner : ProgramError
  | InvalidAssetProtocol : ProgramError
  | BorshIoError : ProgramError
  deriving DecidableEq, Repr

/-- Modelled from the spec: `WritableCheck` from the missing
`utils/account_check.rs` — fails `NotWritable` unless the account's
writable flag is set (spec §4.1). -/
def WritableAccount.check (a : Account) : Except ProgramError Unit :=
  if a.is_writable then .ok () else .error .NotWritable

/-- Modelled from the spec: `SignerCheck` from the missing
`utils/account_check.rs` — fails `NotSigner` unless the account's signer
flag is set (spec §4.1). -/
def SignerAccount.check (a : Account) : Except ProgramError Unit :=
  if a.is_signer then .ok () else .error .NotSigner

/-- Modelled from the spec: `OwningRuntimeCheck` from the missing
`utils/account_check.rs` — fails `InvalidProgramOwner` unless the
account's owning program is the well-known runtime (system) program id
(spec §4.1). -/
def SystemAccount.check (a : Account) : Except ProgramError Unit :=
  if a.owner = systemProgramId then .ok () else .error .InvalidProgramOwner

/-- Modelled from the spec: `AssetProtocolCheck` from the missing
`utils/account_check.rs` — fails `InvalidAssetProtocol` unless the
account's identity equals the well-known asset-protocol program id
(spec §4.1). -/
def MplCoreAccount.check (a : Account) : Except ProgramError Unit :=
  if a.key = mplCoreProgramId then .ok () else .error .InvalidAssetProtocol

/-- Modelled from the spec: the optional form of a check from the missing
`utils/account_check.rs` — if the role's account is absent the check is
skipped and treated as pass; if present, the underlying check runs
unchanged (spec §4.1).  Instantiated for each check below. -/
def checkOptional (check : Account → Except ProgramError Unit) :
    Option Account → Except ProgramError Unit
  | none => .ok ()
  | some a => check a

/-- Modelled from the spec: optional form of the writable check. -/
def WritableAccount.check_optional : Option Account → Except ProgramError Unit :=
  checkOptional WritableAccount.check

/-- Modelled from the spec: optional form of the signer check. -/
def SignerAccount.check_optional : Option Account → Except ProgramError Unit :=
  checkOptional SignerAccount.check

/-- Modelled from the spec: optional form of the owning-runtime check. -/
def SystemAccount.check_optional : Option Account → Except ProgramError Unit :=
  checkOptional SystemAccount.check

/-- Modelled from the spec: `to_optional` from the missing
`utils/optional_account.rs` — optional roles that are deliberately
absent are supplied as the placeholder/default address and mapped to an
explicit "no account" marker (spec §3 "Capability Requirement",
§6 "Account-list contract", §9 first bullet). -/
def toOptional (a : Account) : Option Account :=
  if a.key = placeholderId then none else some a

/-- `CreateNftV1Accounts` (src/instructions/create_nft_v1.rs lines
15-26): role-named accessor structure for the Create binding. -/
structure CreateNftV1Accounts where
  asset : Account
  collection : Option Account
  authority : Option Account
  payer : Account
  owner : Option Account
  update_authority : Option Account
  system_program : Account
  log_wrapper : Option Account
  mpl_core : Account
  deriving DecidableEq, Repr

/-- `CreateNftV1Accounts::try_from` (src/instructions/create_nft_v1.rs
lines 28-69): destructure the 9-slot list positionally, run the checks
in declaration order, build the role-named structure. -/
def CreateNftV1Accounts.try_from (accounts : List Account) :
    Except ProgramError CreateNftV1Accounts :=
  match accounts with
  | [asset, collection, authority, payer, owner, update_authority,
     system_program, log_wrapper, mpl_core] =>
    (WritableAccount.check asset).bind fun _ =>
    (WritableAccount.check collection).bind fun _ =>
    (SignerAccount.check_optional (toOptional authority)).bind fun _ =>
    (WritableAccount.check payer).bind fun _ =>
    (SignerAccount.check payer).bind fun _ =>
    (SignerAccount.check_optional (toOptional owner)).bind fun _ =>
    (SignerAccount.check_optional (toOptional update_authority)).bind fun _ =>
    (SystemAccount.check system_program).bind fun _ =>
    (MplCoreAccount.check mpl_core).bind fun _ =>
    Except.ok
      { asset := asset
        collection := toOptional collection
        authority := toOptional authority
        payer := payer
        owner := toOptional owner
        update_authority := toOptional update_authority
        system_program := system_program
        log_wrapper := toOptional log_wrapper
        mpl_core := mpl_core }
  | _ => .error .NotEnoughAccountKeys

/-- `UpdateNftV1Accounts` (src/instructions/update_nft_v1.rs lines
12-21). -/
structure UpdateNftV1Accounts where
  asset : Account
  collection : Option Account
  authority : Option Account
  payer : Account
  system_program : Account
  log_wrapper : Option Account
  mpl_core : Account
  deriving DecidableEq, Repr

/-- `UpdateNftV1Accounts::try_from` (src/instructions/update_nft_v1.rs
lines 23-50): 7-slot list. -/
def UpdateNftV1Accounts.try_from (accounts : List Account) :
    Except ProgramError UpdateNftV1Accounts :=
  match accounts with
  | [asset, collection, authority, payer, system_program, log_wrapper, mpl_core] =>
    (WritableAccount.check asset).bind fun _ =>
    (WritableAccount.check collection).bind fun _ =>
    (SignerAccount.check_optional (toOptional authority)).bind fun _ =>
    (WritableAccount.check payer).bind fun _ =>
    (SignerAccount.check payer).bind fun _ =>
    (SystemAccount.check system_program).bind fun _ =>
    (MplCoreAccount.check mpl_core).bind fun _ =>
    Except.ok
      { asset := asset
        collection := toOptional collection
        authority := toOptional authority
        payer := payer
        system_program := system_program
        log_wrapper := toOptional log_wrapper
        mpl_core := mpl_core }
  | _ => .error .NotEnoughAccountKeys

/-- `TransferNftV1Accounts` (src/instructions/transfer_nft_v1.rs lines
11-21). -/
structure TransferNftV1Accounts where
  asset : Account
  collection : Option Account
  authority : Option Account
  new_owner : Account
  payer : Account
  system_program : Option Account
  log_wrapper : Option Account
  mpl_core : Account
  deriving DecidableEq, Repr

/-- `TransferNftV1Accounts::try_from` (src/instructions/transfer_nft_v1.rs
lines 23-52): 8-slot list; note the destructuring order puts `new_owner`
in the 4th slot and `payer` in the 5th. -/
def TransferNftV1Accounts.try_from (accounts : List Account) :
    Except ProgramError TransferNftV1Accounts :=
  match accounts with
  | [asset, collection, authority, new_owner, payer, system_program,
     log_wrapper, mpl_core] =>
    (WritableAccount.check asset).bind fun _ =>
    (WritableAccount.check_optional (toOptional collection)).bind fun _ =>
    (SignerAccount.check_optional (toOptional authority)).bind fun _ =>
    (WritableAccount.check payer).bind fun _ =>
    (SignerAccount.check payer).bind fun _ =>
    (SystemAccount.check_optional (toOptional system_program)).bind fun _ =>
    (MplCoreAccount.check mpl_core).bind fun _ =>
    Except.ok
      { asset := asset
        collection := toOptional collection
        authority := toOptional authority
        new_owner := new_owner
        payer := payer
        system_program := toOptional system_program
        log_wrapper := toOptional log_wrapper
        mpl_core := mpl_core }
  | _ => .error .NotEnoughAccountKeys

/-! ## Instruction payload codec

The payload is the borsh encoding of the `Instructions` enum
(src/instructions/mod.rs lines 11-16): a leading one-byte discriminant
(0 = CreateNftV1, 1 = UpdateNftV1, 2 = TransferNftV1) followed by the
variant's fields in declared order.  Borsh's scheme, as described in
spec §4.2: `Option` is a 0/1 byte then the value, strings and sequences
are length-prefixed with a 4-byte little-endian element count.  Bytes
are modelled as natural numbers; the wire only carries values below
256.  Strings are modelled as their raw byte lists (the UTF-8 validity
check of real borsh is not modelled; it does not affect the claims
below). -/

/-- Modelled from the spec: `DataState` is a type of the external
`mpl_core` crate (out of scope per spec §1); spec §3 names its
"account-resident" default.  The external enum has the two variants
`AccountState` (discriminant 0) and `LedgerState` (discriminant 1). -/
inductive DataState where
  | AccountState : DataState
  | LedgerState : DataState
  deriving DecidableEq, Repr

/-- Modelled from the spec: `PluginAuthorityPair` is a type of the
external `mpl_core` crate (out of scope per spec §1); the spec treats
plugin-list items as opaque typed values, so each is modelled as a
single-byte tagged value. -/
structure PluginAuthorityPair where
  tag : Fin 256
  deriving DecidableEq, Repr

/-- `CreateNftV1InstructionData` (src/instructions/create_nft_v1.rs
lines 71-77): fields in declared (wire) order. -/
structure CreateNftV1InstructionData where
  data_state : Option DataState
  name : List Nat
  uri : List Nat
  plugins : Option (List PluginAuthorityPair)
  deriving DecidableEq, Repr

/-- `UpdateNftV1InstructionData` (src/instructions/update_nft_v1.rs
lines 52-56). -/
structure UpdateNftV1InstructionData where
  new_name : Option (List Nat)
  new_uri : Option (List Nat)
  deriving DecidableEq, Repr

/-- `Instructions` (src/instructions/mod.rs lines 11-16): the tagged
union of operation payloads. -/
inductive Instructions where
  | CreateNftV1 (data : CreateNftV1InstructionData)
  | UpdateNftV1 (data : UpdateNftV1InstructionData)
  | TransferNftV1
  deriving DecidableEq, Repr

/-- A deterministic byte-list parser: consumed input on the left,
remainder returned on success. -/
def Parser (α : Type) : Type := List Nat → Option (α × List Nat)

/-- Parser succeeding without consuming input. -/
def ppure (a : α) : Parser α := fun bs => some (a, bs)

/-- Parser that always fails. -/
def pfail : Parser α := fun _ => none

/-- Sequential composition of parsers. -/
def pbind (p : Parser α) (f : α → Parser β) : Parser β := fun bs =>
  match p bs with
  | none => none
  | some (a, rest) => f a rest

/-- Read one byte; fails on empty input (truncation). -/
def readByte : Parser Nat := fun bs =>
  match bs with
  | [] => none
  | b :: rest => some (b, rest)

/-- Read exactly `n` bytes. -/
def readBytes : Nat → Parser (List Nat)
  | 0 => ppure []
  | n + 1 =>
    pbind readByte fun b =>
    pbind (readBytes n) fun bs =>
    ppure (b :: bs)

/-- Read a 4-byte little-endian unsigned 32-bit length. -/
def readU32 : Parser Nat :=
  pbind readByte fun b0 =>
  pbind readByte fun b1 =>
  pbind readByte fun b2 =>
  pbind readByte fun b3 =>
  ppure (b0 + 256 * b1 + 65536 * b2 + 16777216 * b3)

/-- Borsh `Option`: tag byte 0 for `None`, 1 then the value for `Some`;
any other tag is malformed. -/
def readOption (p : Parser α) : Parser (Option α) :=
  pbind readByte fun t =>
    match t with
    | 0 => ppure none
    | 1 => pbind p fun a => ppure (some a)
    | _ => pfail

/-- Read exactly `n` elements. -/
def readCount (p : Parser α) : Nat → Parser (List α)
  | 0 => ppure []
  | n + 1 =>
    pbind p fun a =>
    pbind (readCount p n) fun as =>
    ppure (a :: as)

/-- Borsh `Vec`: little-endian u32 element count, then the elements. -/
def readVec (p : Parser α) : Parser (List α) :=
  pbind readU32 (readCount p)

/-- Borsh `String`: little-endian u32 byte count, then the bytes. -/
def readString : Parser (List Nat) :=
  pbind readU32 readBytes

/-- Decode a `DataState` discriminant byte. -/
def readDataState : Parser DataState :=
  pbind readByte fun t =>
    match t with
    | 0 => ppure .AccountState
    | 1 => ppure .LedgerState
    | _ => pfail

/-- Decode one (opaquely modelled) plugin pair. -/
def readPlugin : Parser PluginAuthorityPair :=
  pbind readByte fun b =>
    if h : b < 256 then ppure ⟨⟨b, h⟩⟩ else pfail

/-- Decode the fields of `CreateNftV1InstructionData` in declared
order. -/
def readCreateData : Parser CreateNftV1InstructionData :=
  pbind (readOption readDataState) fun ds =>
  pbind readString fun name =>
  pbind readString fun uri =>
  pbind (readOption (readVec readPlugin)) fun ps =>
  ppure ⟨ds, name, uri, ps⟩

/-- Decode the fields of `UpdateNftV1InstructionData` in declared
order. -/
def readUpdateData : Parser UpdateNftV1InstructionData :=
  pbind (readOption readString) fun n =>
  pbind (readOption readString) fun u =>
  ppure ⟨n, u⟩

/-- Decode the `Instructions` enum: one discriminant byte, then the
selected variant's fields. -/
def readInstructions : Parser Instructions :=
  pbind readByte fun t =>
    match t with
    | 0 => pbind readCreateData fun d => ppure (.CreateNftV1 d)
    | 1 => pbind readUpdateData fun d => ppure (.UpdateNftV1 d)
    | 2 => ppure .TransferNftV1
    | _ => pfail

/-- Little-endian 4-byte encoding of a u32 length (lengths ≥ 2^32 do not
occur on the wire). -/
def encodeU32 (n : Nat) : List Nat :=
  [n % 256, n / 256 % 256, n / 65536 % 256, n / 16777216 % 256]

/-- Encode a borsh string: length prefixed byte list. -/
def encodeString (s : List Nat) : List Nat := encodeU32 s.length ++ s

/-- Encode a borsh `Option`. -/
def encodeOption (enc : α → List Nat) : Option α → List Nat
  | none => [0]
  | some a => 1 :: enc a

/-- Encode a `DataState` discriminant. -/
def encodeDataState : DataState → List Nat
  | .AccountState => [0]
  | .LedgerState => [1]

/-- Encode one (opaquely modelled) plugin pair. -/
def encodePlugin (p : PluginAuthorityPair) : List Nat := [p.tag.val]

/-- Concatenated encodings of a plugin list's elements. -/
def encodePluginList : List PluginAuthorityPair → List Nat
  | [] => []
  | p :: ps => encodePlugin p ++ encodePluginList ps

/-- Encode a borsh `Vec` of plugin pairs. -/
def encodeVecPlugins (ps : List PluginAuthorityPair) : List Nat :=
  encodeU32 ps.length ++ encodePluginList ps

/-- Encode the fields of `CreateNftV1InstructionData` in declared
order. -/
def encodeCreateData (d : CreateNftV1InstructionData) : List Nat :=
  encodeOption encodeDataState d.data_state ++ encodeString d.name ++
    encodeString d.uri ++ encodeOption encodeVecPlugins d.plugins

/-- Encode the fields of `UpdateNftV1InstructionData` in declared
order. -/
def encodeUpdateData (d : UpdateNftV1InstructionData) : List Nat :=
  encodeOption encodeString d.new_name ++ encodeOption encodeString d.new_uri

/-- Encode an `Instructions` value: discriminant byte then fields. -/
def encodeInstructions : Instructions → List Nat
  | .CreateNftV1 d => 0 :: encodeCreateData d
  | .UpdateNftV1 d => 1 :: encodeUpdateData d
  | .TransferNftV1 => [2]

/-- `Instructions::try_from_slice` (src/lib.rs line 23): borsh
deserialization of the whole payload; fails unless the parse succeeds
and consumes the entire input (borsh's `try_from_slice` rejects
leftover bytes).  The error is mapped to `ProgramError::BorshIoError`. -/
def decodeInstructions (bs : List Nat) : Except ProgramError Instructions :=
  match readInstructions bs with
  | some (i, []) => .ok i
  | _ => .error .BorshIoError

/-- Sequence lengths representable in the u32 length prefixes: the
well-formedness every value arising from a real wire payload has. -/
def wfCreateData (d : CreateNftV1InstructionData) : Bool :=
  decide (d.name.length < 2 ^ 32) && decide (d.uri.length < 2 ^ 32) &&
    (match d.plugins with
     | none => true
     | some ps => decide (ps.length < 2 ^ 32))

/-- Length well-formedness for update payloads. -/
def wfUpdateData (d : UpdateNftV1InstructionData) : Bool :=
  (match d.new_name with
   | none => true
   | some s => decide (s.length < 2 ^ 32)) &&
  (match d.new_uri with
   | none => true
   | some s => decide (s.length < 2 ^ 32))

/-- Length well-formedness of an `Instructions` value. -/
def wfInstructions : Instructions → Bool
  | .CreateNftV1 d => wfCreateData d
  | .UpdateNftV1 d => wfUpdateData d
  | .TransferNftV1 => true

/-! ## Outbound invocation

`process()` builds the single outbound CPI into `mpl_core`
(CreateV1CpiBuilder / UpdateV1CpiBuilder / TransferV1CpiBuilder) from
the bound accounts and the decoded arguments.  The CPI itself is the
sole side effect and is external; we model the call by the argument
record it carries. -/

/-- Arguments of the outbound `CreateV1` CPI as assembled by
`CreateNftV1::process` (src/instructions/create_nft_v1.rs lines
102-125). -/
structure CreateV1CpiArgs where
  mpl_core : Account
  asset : Account
  collection : Option Account
  authority : Option Account
  payer : Account
  owner : Option Account
  update_authority : Option Account
  system_program : Account
  data_state : DataState
  log_wrapper : Option Account
  name : List Nat
  uri : List Nat
  plugins : List PluginAuthorityPair
  deriving DecidableEq, Repr

/-- Arguments of the outbound `UpdateV1` CPI as assembled by
`UpdateNftV1::process` (src/instructions/update_nft_v1.rs lines
80-104); `new_name`/`new_uri` are set on the builder only when present
in the payload. -/
structure UpdateV1CpiArgs where
  mpl_core : Account
  asset : Account
  collection : Option Account
  authority : Option Account
  payer : Account
  system_program : Account
  log_wrapper : Option Account
  new_name : Option (List Nat)
  new_uri : Option (List Nat)
  deriving DecidableEq, Repr

/-- Arguments of the outbound `TransferV1` CPI as assembled by
`TransferNftV1::process` (src/instructions/transfer_nft_v1.rs lines
68-82). -/
structure TransferV1CpiArgs where
  mpl_core : Account
  asset : Account
  collection : Option Account
  authority : Option Account
  new_owner : Account
  payer : Account
  system_program : Option Account
  log_wrapper : Option Account
  deriving DecidableEq, Repr

/-- `CreateNftV1` (src/instructions/create_nft_v1.rs lines 79-100):
bound accounts plus decoded instruction data. -/
structure CreateNftV1 where
  accounts : CreateNftV1Accounts
  instruction_data : CreateNftV1InstructionData
  deriving DecidableEq, Repr

/-- `CreateNftV1::try_from((accounts, data))`
(src/instructions/create_nft_v1.rs lines 85-100). -/
def CreateNftV1.try_from (accounts : List Account)
    (data : CreateNftV1InstructionData) : Except ProgramError CreateNftV1 :=
  (CreateNftV1Accounts.try_from accounts).map fun a =>
    { accounts := a, instruction_data := data }

/-- `CreateNftV1::process` (src/instructions/create_nft_v1.rs lines
102-125): absent `data_state` defaults to `DataState::AccountState`
(`unwrap_or`), absent `plugins` defaults to the empty list
(`unwrap_or_default`); all other values forwarded unchanged. -/
def CreateNftV1.process (self : CreateNftV1) : CreateV1CpiArgs :=
  { mpl_core := self.accounts.mpl_core
    asset := self.accounts.asset
    collection := self.accounts.collection
    authority := self.accounts.authority
    payer := self.accounts.payer
    owner := self.accounts.owner
    update_authority := self.accounts.update_authority
    system_program := self.accounts.system_program
    data_state := self.instruction_data.data_state.getD DataState.AccountState
    log_wrapper := self.accounts.log_wrapper
    name := self.instruction_data.name
    uri := self.instruction_data.uri
    plugins := self.instruction_data.plugins.getD [] }

/-- `UpdateNftV1` (src/instructions/update_nft_v1.rs lines 58-78). -/
structure UpdateNftV1 where
  accounts : UpdateNftV1Accounts
  instruction_data : UpdateNftV1InstructionData
  deriving DecidableEq, Repr

/-- `UpdateNftV1::try_from((accounts, data))`
(src/instructions/update_nft_v1.rs lines 63-78). -/
def UpdateNftV1.try_from (accounts : List Account)
    (data : UpdateNftV1InstructionData) : Except ProgramError UpdateNftV1 :=
  (UpdateNftV1Accounts.try_from accounts).map fun a =>
    { accounts := a, instruction_data := data }

/-- `UpdateNftV1::process` (src/instructions/update_nft_v1.rs lines
80-104). -/
def UpdateNftV1.process (self : UpdateNftV1) : UpdateV1CpiArgs :=
  { mpl_core := self.accounts.mpl_core
    asset := self.accounts.asset
    collection := self.accounts.collection
    authority := self.accounts.authority
    payer := self.accounts.payer
    system_program := self.accounts.system_program
    log_wrapper := self.accounts.log_wrapper
    new_name := self.instruction_data.new_name
    new_uri := self.instruction_data.new_uri }

/-- `TransferNftV1` (src/instructions/transfer_nft_v1.rs lines 54-66). -/
structure TransferNftV1 where
  accounts : TransferNftV1Accounts
  deriving DecidableEq, Repr

/-- `TransferNftV1::try_from(accounts)`
(src/instructions/transfer_nft_v1.rs lines 58-66). -/
def TransferNftV1.try_from (accounts : List Account) :
    Except ProgramError TransferNftV1 :=
  (TransferNftV1Accounts.try_from accounts).map fun a => { accounts := a }

/-- `TransferNftV1::process` (src/instructions/transfer_nft_v1.rs lines
68-82). -/
def TransferNftV1.process (self : TransferNftV1) : TransferV1CpiArgs :=
  { mpl_core := self.accounts.mpl_core
    asset := self.accounts.asset
    collection := self.accounts.collection
    authority := self.accounts.authority
    new_owner := self.accounts.new_owner
    payer := self.accounts.payer
    system_program := self.accounts.system_program
    log_wrapper := self.accounts.log_wrapper }

/-- The single outbound CPI an instruction issues on success. -/
inductive CpiCall where
  | CreateV1 (args : CreateV1CpiArgs)
  | UpdateV1 (args : UpdateV1CpiArgs)
  | TransferV1 (args : TransferV1CpiArgs)
  deriving DecidableEq, Repr

/-- `process_entrypoint` (src/lib.rs lines 18-30, src/processor.rs lines
9-21): decode the payload, route on the tag, bind the accounts, and
issue the operation's CPI (modelled by the argument record the call
carries). -/
def process_entrypoint (accounts : List Account) (instruction_data : List Nat) :
    Except ProgramError CpiCall :=
  (decodeInstructions instruction_data).bind fun instruction =>
    match instruction with
    | .CreateNftV1 data =>
      (CreateNftV1.try_from accounts data).map fun v => .CreateV1 v.process
    | .UpdateNftV1 data =>
      (UpdateNftV1.try_from accounts data).map fun v => .UpdateV1 v.process
    | .TransferNftV1 =>
      (TransferNftV1.try_from accounts).map fun v => .TransferV1 v.process

/-- The error carried by a failed binding, `none` on success. -/
def errOf : Except ProgramError α → Option ProgramError
  | .error e => some e
  | .ok _ => none

/-- `true` exactly when the computation failed. -/
def isErr : Except ProgramError α → Bool
  | .error _ => true
  | .ok _ => false

/-- First error of an ordered list of check results. -/
def firstError : List (Except ProgramError Unit) → Option ProgramError
  | [] => none
  | .error e :: _ => some e
  | .ok _ :: rest => firstError rest

/-- A bind-chain of unit checks in front of a final result: the shape
shared by every `try_from` above (each `?` in the source is one link). -/
def chain : List (Except ProgramError Unit) → Except ProgramError α →
    Except ProgramError α
  | [], t => t
  | c :: cs, t => c.bind fun _ => chain cs t

/-- A parser is append-stable when extending the input beyond what it
consumed does not change the value parsed, only the remainder.  Every
parser built from the combinators above is. -/
def PStable (p : Parser α) : Prop :=
  ∀ as v rs cs, p as = some (v, rs) → p (as ++ cs) = some (v, rs ++ cs)

/-! ## Helper lemmas: account binding -/

theorem errOf_chain (cs : List (Except ProgramError Unit)) (v : α) :
    errOf (chain cs (.ok v)) = firstError cs := by
  induction cs with
  | nil => rfl
  | cons c cs ih =>
    cases c with
    | error e => rfl
    | ok u => cases u; simpa [chain, Except.bind, firstError] using ih

theorem chain_ok_iff (cs : List (Except ProgramError Unit)) (v r : α) :
    chain cs (.ok v) = .ok r ↔ (r = v ∧ ∀ c ∈ cs, c = .ok ()) := by
  induction cs with
  | nil =>
    simp only [chain, List.not_mem_nil, false_implies, implies_true, and_true]
    exact ⟨fun h => (Except.ok.injEq .. ▸ h.symm), fun h => by rw [h]⟩
  | cons c cs ih =>
    cases c with
    | error e => simp [chain, Except.bind]
    | ok u =>
      cases u
      simp only [chain, Except.bind, List.mem_cons]
      rw [ih]
      constructor
      · rintro ⟨hr, hall⟩
        exact ⟨hr, fun c hc => hc.elim (fun h => h ▸ rfl) (hall c)⟩
      · rintro ⟨hr, hall⟩
        exact ⟨hr, fun c hc => hall c (Or.inr hc)⟩

theorem writable_check_ok (a : Account) :
    WritableAccount.check a = .ok () ↔ a.is_writable = true := by
  cases h : a.is_writable <;> simp [WritableAccount.check, h]

theorem signer_check_ok (a : Account) :
    SignerAccount.check a = .ok () ↔ a.is_signer = true := by
  cases h : a.is_signer <;> simp [SignerAccount.check, h]

theorem mplcore_check_ok (a : Account) :
    MplCoreAccount.check a = .ok () ↔ a.key = mplCoreProgramId := by
  by_cases h : a.key = mplCoreProgramId <;> simp [MplCoreAccount.check, h]

theorem system_check_ok (a : Account) :
    SystemAccount.check a = .ok () ↔ a.owner = systemProgramId := by
  by_cases h : a.owner = systemProgramId <;> simp [SystemAccount.check, h]

/-- `CreateNftV1Accounts::try_from` on a full 9-slot list is the check
chain in the source's declaration order, ending in the role-named
record. -/
theorem create_chain_eq (a0 a1 a2 a3 a4 a5 a6 a7 a8 : Account) :
    CreateNftV1Accounts.try_from [a0, a1, a2, a3, a4, a5, a6, a7, a8] =
      chain [WritableAccount.check a0, WritableAccount.check a1,
        SignerAccount.check_optional (toOptional a2), WritableAccount.check a3,
        SignerAccount.check a3, SignerAccount.check_optional (toOptional a4),
        SignerAccount.check_optional (toOptional a5), SystemAccount.check a6,
        MplCoreAccount.check a8]
        (.ok { asset := a0, collection := toOptional a1, authority := toOptional a2,
               payer := a3, owner := toOptional a4, update_authority := toOptional a5,
               system_program := a6, log_wrapper := toOptional a7, mpl_core := a8 }) := rfl

/-- `UpdateNftV1Accounts::try_from` on a full 7-slot list as a check
chain. -/
theorem update_chain_eq (a0 a1 a2 a3 a4 a5 a6 : Account) :
    UpdateNftV1Accounts.try_from [a0, a1, a2, a3, a4, a5, a6] =
      chain [WritableAccount.check a0, WritableAccount.check a1,
        SignerAccount.check_optional (toOptional a2), WritableAccount.check a3,
        SignerAccount.check a3, SystemAccount.check a4, MplCoreAccount.check a6]
        (.ok { asset := a0, collection := toOptional a1, authority := toOptional a2,
               payer := a3, system_program := a4, log_wrapper := toOptional a5,
               mpl_core := a6 }) := rfl

/-- `TransferNftV1Accounts::try_from` on a full 8-slot list as a check
chain; the 4th slot (`a3`) is bound to `new_owner` with no check, the
5th (`a4`) to `payer`. -/
theorem transfer_chain_eq (a0 a1 a2 a3 a4 a5 a6 a7 : Account) :
    TransferNftV1Accounts.try_from [a0, a1, a2, a3, a4, a5, a6, a7] =
      chain [WritableAccount.check a0,
        WritableAccount.check_optional (toOptional a1),
        SignerAccount.check_optional (toOptional a2), WritableAccount.check a4,
        SignerAccount.check a4, SystemAccount.check_optional (toOptional a5),
        MplCoreAccount.check a7]
        (.ok { asset := a0, collection := toOptional a1, authority := toOptional a2,
               new_owner := a3, payer := a4, system_program := toOptional a5,
               log_wrapper := toOptional a6, mpl_core := a7 }) := rfl

/-- Any list that is not exactly 9 long falls to `CreateNftV1Accounts`'s
arity-mismatch arm. -/
theorem create_arity (l : List Account) (h : l.length ≠ 9) :
    CreateNftV1Accounts.try_from l = .error .NotEnoughAccountKeys := by
  rcases l with _ | ⟨a0, l⟩
  · rfl
  rcases l with _ | ⟨a1, l⟩
  · rfl
  rcases l with _ | ⟨a2, l⟩
  · rfl
  rcases l with _ | ⟨a3, l⟩
  · rfl
  rcases l with _ | ⟨a4, l⟩
  · rfl
  rcases l with _ | ⟨a5, l⟩
  · rfl
  rcases l with _ | ⟨a6, l⟩
  · rfl
  rcases l with _ | ⟨a7, l⟩
  · rfl
  rcases l with _ | ⟨a8, l⟩
  · rfl
  rcases l with _ | ⟨a9, l⟩
  · simp at h
  · rfl

/-- Any list that is not exactly 7 long falls to `UpdateNftV1Accounts`'s
arity-mismatch arm. -/
theorem update_arity (l : List Account) (h : l.length ≠ 7) :
    UpdateNftV1Accounts.try_from l = .error .NotEnoughAccountKeys := by
  rcases l with _ | ⟨a0, l⟩
  · rfl
  rcases l with _ | ⟨a1, l⟩
  · rfl
  rcases l with _ | ⟨a2, l⟩
  · rfl
  rcases l with _ | ⟨a3, l⟩
  · rfl
  rcases l with _ | ⟨a4, l⟩
  · rfl
  rcases l with _ | ⟨a5, l⟩
  · rfl
  rcases l with _ | ⟨a6, l⟩
  · rfl
  rcases l with _ | ⟨a7, l⟩
  · simp at h
  · rfl

/-- Any list that is not exactly 8 long falls to
`TransferNftV1Accounts`'s arity-mismatch arm. -/
theorem transfer_arity (l : List Account) (h : l.length ≠ 8) :
    TransferNftV1Accounts.try_from l = .error .NotEnoughAccountKeys := by
  rcases l with _ | ⟨a0, l⟩
  · rfl
  rcases l with _ | ⟨a1, l⟩
  · rfl
  rcases l with _ | ⟨a2, l⟩
  · rfl
  rcases l with _ | ⟨a3, l⟩
  · rfl
  rcases l with _ | ⟨a4, l⟩
  · rfl
  rcases l with _ | ⟨a5, l⟩
  · rfl
  rcases l with _ | ⟨a6, l⟩
  · rfl
  rcases l with _ | ⟨a7, l⟩
  · rfl
  rcases l with _ | ⟨a8, l⟩
  · simp at h
  · rfl

/-! ## Claims: account binding -/

/-- C3: for every operation and every account list shorter than that
operation's fixed arity (9 for Create, 7 for Update, 8 for Transfer),
binding fails with `NotEnoughAccounts` regardless of which accounts are
supplied (the error is produced by the destructuring arm before any
capability check can run); in particular the empty list for Update
fails this way. -/
theorem claim_C3_short_list_not_enough_accounts :
    ∀ accounts : List Account,
      (accounts.length < 9 →
        CreateNftV1Accounts.try_from accounts = .error .NotEnoughAccountKeys) ∧
      (accounts.length < 7 →
        UpdateNftV1Accounts.try_from accounts = .error .NotEnoughAccountKeys) ∧
      (accounts.length < 8 →
        TransferNftV1Accounts.try_from accounts = .error .NotEnoughAccountKeys) :=
  fun accounts =>
    ⟨fun _ => create_arity accounts (by omega),
     fun _ => update_arity accounts (by omega),
     fun _ => transfer_arity accounts (by omega)⟩

/-- C3 witness: the empty account list for Update (spec scenario C). -/
theorem claim_C3_witness :
    ([] : List Account).length < 7 ∧
      UpdateNftV1Accounts.try_from [] = .error .NotEnoughAccountKeys :=
  ⟨by decide, (claim_C3_short_list_not_enough_accounts []).2.1 (by decide)⟩

/-- C9: supplying more accounts than the operation's fixed arity also
fails binding with `NotEnoughAccounts`: the destructuring pattern
matches exactly the arity, so extra trailing accounts are rejected, not
ignored. -/
theorem claim_C9_long_list_not_enough_accounts :
    ∀ accounts : List Account,
      (9 < accounts.length →
        CreateNftV1Accounts.try_from accounts = .error .NotEnoughAccountKeys) ∧
      (7 < accounts.length →
        UpdateNftV1Accounts.try_from accounts = .error .NotEnoughAccountKeys) ∧
      (8 < accounts.length →
        TransferNftV1Accounts.try_from accounts = .error .NotEnoughAccountKeys) :=
  fun accounts =>
    ⟨fun _ => create_arity accounts (by omega),
     fun _ => update_arity accounts (by omega),
     fun _ => transfer_arity accounts (by omega)⟩

/-- C9 witness: ten accounts supplied to Transfer (arity 8) are
rejected with the arity error. -/
theorem claim_C9_witness :
    8 < (List.replicate 10 (⟨0, 1, false, false, 1, 0⟩ : Account)).length ∧
      TransferNftV1Accounts.try_from
          (List.replicate 10 ⟨0, 1, false, false, 1, 0⟩) =
        .error .NotEnoughAccountKeys :=
  ⟨by decide,
   (claim_C9_long_list_not_enough_accounts
       (List.replicate 10 ⟨0, 1, false, false, 1, 0⟩)).2.2 (by decide)⟩

/-- C4: for every operation, if the account supplied in the
asset-protocol role (the last slot) has an identity different from the
expected asset-protocol program id, binding fails — proved
unconditionally on the other accounts, hence in particular when every
other account satisfies its role's requirements. -/
theorem claim_C4_wrong_asset_protocol_fails :
    (∀ a0 a1 a2 a3 a4 a5 a6 a7 a8 : Account, a8.key ≠ mplCoreProgramId →
      isErr (CreateNftV1Accounts.try_from [a0, a1, a2, a3, a4, a5, a6, a7, a8]) = true) ∧
    (∀ a0 a1 a2 a3 a4 a5 a6 : Account, a6.key ≠ mplCoreProgramId →
      isErr (UpdateNftV1Accounts.try_from [a0, a1, a2, a3, a4, a5, a6]) = true) ∧
    (∀ a0 a1 a2 a3 a4 a5 a6 a7 : Account, a7.key ≠ mplCoreProgramId →
      isErr (TransferNftV1Accounts.try_from [a0, a1, a2, a3, a4, a5, a6, a7]) = true) := by
  refine ⟨fun a0 a1 a2 a3 a4 a5 a6 a7 a8 h => ?_,
    fun a0 a1 a2 a3 a4 a5 a6 h => ?_, fun a0 a1 a2 a3 a4 a5 a6 a7 h => ?_⟩
  · cases htf : CreateNftV1Accounts.try_from [a0, a1, a2, a3, a4, a5, a6, a7, a8] with
    | error e => rfl
    | ok r =>
      rw [create_chain_eq, chain_ok_iff] at htf
      exact absurd ((mplcore_check_ok a8).mp
        (htf.2 (MplCoreAccount.check a8) (by simp))) h
  · cases htf : UpdateNftV1Accounts.try_from [a0, a1, a2, a3, a4, a5, a6] with
    | error e => rfl
    | ok r =>
      rw [update_chain_eq, chain_ok_iff] at htf
      exact absurd ((mplcore_check_ok a6).mp
        (htf.2 (MplCoreAccount.check a6) (by simp))) h
  · cases htf : TransferNftV1Accounts.try_from [a0, a1, a2, a3, a4, a5, a6, a7] with
    | error e => rfl
    | ok r =>
      rw [transfer_chain_eq, chain_ok_iff] at htf
      exact absurd ((mplcore_check_ok a7).mp
        (htf.2 (MplCoreAccount.check a7) (by simp))) h

/-- C4 witness: a Create list whose last slot has identity 5 (not the
asset-protocol id) while every other account satisfies its role. -/
theorem claim_C4_witness :
    (⟨5, 3, false, false, 1, 0⟩ : Account).key ≠ mplCoreProgramId ∧
      isErr (CreateNftV1Accounts.try_from
        [⟨10, 1, false, true, 1, 0⟩, ⟨11, 1, false, true, 1, 0⟩,
         ⟨0, 1, false, false, 1, 0⟩, ⟨12, 1, true, true, 1, 0⟩,
         ⟨0, 1, false, false, 1, 0⟩, ⟨0, 1, false, false, 1, 0⟩,
         ⟨1, 1, false, false, 1, 0⟩, ⟨0, 1, false, false, 1, 0⟩,
         ⟨5, 3, false, false, 1, 0⟩]) = true :=
  ⟨by decide,
   claim_C4_wrong_asset_protocol_fails.1 ⟨10, 1, false, true, 1, 0⟩
     ⟨11, 1, false, true, 1, 0⟩ ⟨0, 1, false, false, 1, 0⟩ ⟨12, 1, true, true, 1, 0⟩
     ⟨0, 1, false, false, 1, 0⟩ ⟨0, 1, false, false, 1, 0⟩ ⟨1, 1, false, false, 1, 0⟩
     ⟨0, 1, false, false, 1, 0⟩ ⟨5, 3, false, false, 1, 0⟩ (by decide)⟩

/-- C5: for every operation, binding runs its checks failure-fast in
the source's role-declaration order: the outcome error (if any) is the
first error of the ordered check list — for Create: asset writable,
collection writable, authority signer (if present), payer writable,
payer signer, owner signer (if present), update-authority signer (if
present), owning-runtime identity, asset-protocol identity. -/
theorem claim_C5_failure_fast_first_error :
    (∀ a0 a1 a2 a3 a4 a5 a6 a7 a8 : Account,
      errOf (CreateNftV1Accounts.try_from [a0, a1, a2, a3, a4, a5, a6, a7, a8]) =
        firstError [WritableAccount.check a0, WritableAccount.check a1,
          SignerAccount.check_optional (toOptional a2), WritableAccount.check a3,
          SignerAccount.check a3, SignerAccount.check_optional (toOptional a4),
          SignerAccount.check_optional (toOptional a5), SystemAccount.check a6,
          MplCoreAccount.check a8]) ∧
    (∀ a0 a1 a2 a3 a4 a5 a6 : Account,
      errOf (UpdateNftV1Accounts.try_from [a0, a1, a2, a3, a4, a5, a6]) =
        firstError [WritableAccount.check a0, WritableAccount.check a1,
          SignerAccount.check_optional (toOptional a2), WritableAccount.check a3,
          SignerAccount.check a3, SystemAccount.check a4,
          MplCoreAccount.check a6]) ∧
    (∀ a0 a1 a2 a3 a4 a5 a6 a7 : Account,
      errOf (TransferNftV1Accounts.try_from [a0, a1, a2, a3, a4, a5, a6, a7]) =
        firstError [WritableAccount.check a0,
          WritableAccount.check_optional (toOptional a1),
          SignerAccount.check_optional (toOptional a2), WritableAccount.check a4,
          SignerAccount.check a4, SystemAccount.check_optional (toOptional a5),
          MplCoreAccount.check a7]) :=
  ⟨fun a0 a1 a2 a3 a4 a5 a6 a7 a8 => by rw [create_chain_eq, errOf_chain],
   fun a0 a1 a2 a3 a4 a5 a6 => by rw [update_chain_eq, errOf_chain],
   fun a0 a1 a2 a3 a4 a5 a6 a7 => by rw [transfer_chain_eq, errOf_chain]⟩

/-- C1 counterexample: a Create account list whose collection slot
holds the absent-role placeholder (identity 0, mapped to the explicit
"no account" marker by `toOptional`) and is non-writable, while every
other account satisfies its role's requirements — binding nevertheless
fails `NotWritable` on the collection slot, so the writable check DID
run on the absent role. -/
theorem claim_C1_counterexample :
    toOptional ⟨0, 1, false, false, 1, 0⟩ = none ∧
      CreateNftV1Accounts.try_from
        [⟨10, 1, false, true, 1, 0⟩, ⟨0, 1, false, false, 1, 0⟩,
         ⟨0, 1, false, false, 1, 0⟩, ⟨11, 1, true, true, 1, 0⟩,
         ⟨0, 1, false, false, 1, 0⟩, ⟨0, 1, false, false, 1, 0⟩,
         ⟨1, 1, false, false, 1, 0⟩, ⟨12, 1, false, false, 1, 0⟩,
         ⟨2, 3, false, false, 1, 0⟩] = .error .NotWritable :=
  ⟨rfl, rfl⟩

/-- C1 amended: in `CreateNftV1Accounts::try_from` the collection
slot's writable check runs unconditionally — `WritableAccount::check`,
not `check_optional` — so even when the slot holds the absent-role
placeholder, a non-writable placeholder fails binding with
`NotWritable` (given the asset check before it passed); only a
writable placeholder proceeds, and is then bound as absent. -/
theorem claim_C1_amended_thm :
    ∀ a0 a1 a2 a3 a4 a5 a6 a7 a8 : Account,
      a1.key = placeholderId →
      (a1.is_writable = false → a0.is_writable = true →
        CreateNftV1Accounts.try_from [a0, a1, a2, a3, a4, a5, a6, a7, a8] =
          .error .NotWritable) ∧
      (a1.is_writable = true → a0.is_writable = true → a2.key = placeholderId →
        a3.is_writable = true → a3.is_signer = true → a4.key = placeholderId →
        a5.key = placeholderId → a6.owner = systemProgramId →
        a8.key = mplCoreProgramId →
        CreateNftV1Accounts.try_from [a0, a1, a2, a3, a4, a5, a6, a7, a8] =
          .ok { asset := a0, collection := none, authority := none, payer := a3,
                owner := none, update_authority := none, system_program := a6,
                log_wrapper := toOptional a7, mpl_core := a8 }) := by
  intro a0 a1 a2 a3 a4 a5 a6 a7 a8 hk
  constructor
  · intro hw1 hw0
    rw [create_chain_eq]
    have hc0 : WritableAccount.check a0 = .ok () := by
      simp [WritableAccount.check, hw0]
    have hc1 : WritableAccount.check a1 = .error .NotWritable := by
      simp [WritableAccount.check, hw1]
    simp [chain, Except.bind, hc0, hc1]
  · intro hw1 hw0 hk2 hw3 hs3 hk4 hk5 ho6 hk8
    rw [create_chain_eq, chain_ok_iff]
    constructor
    · simp [toOptional, hk, hk2, hk4, hk5]
    · intro c hc
      simp only [List.mem_cons, List.not_mem_nil, or_false] at hc
      rcases hc with rfl | rfl | rfl | rfl | rfl | rfl | rfl | rfl | rfl
      · simp [WritableAccount.check, hw0]
      · simp [WritableAccount.check, hw1]
      · simp [SignerAccount.check_optional, checkOptional, toOptional, hk2]
      · simp [WritableAccount.check, hw3]
      · simp [SignerAccount.check, hs3]
      · simp [SignerAccount.check_optional, checkOptional, toOptional, hk4]
      · simp [SignerAccount.check_optional, checkOptional, toOptional, hk5]
      · simp [SystemAccount.check, ho6]
      · simp [MplCoreAccount.check, hk8]

/-- C1 witness: a non-writable placeholder in the collection slot of an
otherwise fully valid Create list is rejected `NotWritable`. -/
theorem claim_C1_witness :
    ((⟨0, 1, false, false, 1, 0⟩ : Account).key = placeholderId ∧
      (⟨0, 1, false, false, 1, 0⟩ : Account).is_writable = false ∧
      (⟨20, 1, false, true, 1, 0⟩ : Account).is_writable = true) ∧
    CreateNftV1Accounts.try_from
      [⟨20, 1, false, true, 1, 0⟩, ⟨0, 1, false, false, 1, 0⟩,
       ⟨21, 1, true, false, 1, 0⟩, ⟨22, 1, true, true, 1, 0⟩,
       ⟨23, 1, true, false, 1, 0⟩, ⟨24, 1, true, false, 1, 0⟩,
       ⟨1, 1, false, false, 1, 0⟩, ⟨25, 1, false, false, 1, 0⟩,
       ⟨2, 3, false, false, 1, 0⟩] = .error .NotWritable :=
  ⟨⟨by decide, by decide, by decide⟩,
   (claim_C1_amended_thm ⟨20, 1, false, true, 1, 0⟩ ⟨0, 1, false, false, 1, 0⟩
       ⟨21, 1, true, false, 1, 0⟩ ⟨22, 1, true, true, 1, 0⟩ ⟨23, 1, true, false, 1, 0⟩
       ⟨24, 1, true, false, 1, 0⟩ ⟨1, 1, false, false, 1, 0⟩ ⟨25, 1, false, false, 1, 0⟩
       ⟨2, 3, false, false, 1, 0⟩ (by decide)).1 (by decide) (by decide)⟩

/-- C2 counterexample: a Transfer account list whose 4th slot is
neither writable nor a signer and whose 5th slot is writable+signer
binds successfully, with the 4th slot in the `new_owner` role and the
5th in the `payer` role — refuting the claim that the 4th slot is the
payer (checked writable and signer) and the 5th the new owner. -/
theorem claim_C2_counterexample :
    TransferNftV1Accounts.try_from
        [⟨10, 1, false, true, 1, 0⟩, ⟨0, 1, false, false, 1, 0⟩,
         ⟨0, 1, false, false, 1, 0⟩, ⟨13, 1, false, false, 1, 0⟩,
         ⟨11, 1, true, true, 1, 0⟩, ⟨0, 1, false, false, 1, 0⟩,
         ⟨12, 1, false, false, 1, 0⟩, ⟨2, 3, false, false, 1, 0⟩] =
      .ok { asset := ⟨10, 1, false, true, 1, 0⟩, collection := none,
            authority := none, new_owner := ⟨13, 1, false, false, 1, 0⟩,
            payer := ⟨11, 1, true, true, 1, 0⟩, system_program := none,
            log_wrapper := some ⟨12, 1, false, false, 1, 0⟩,
            mpl_core := ⟨2, 3, false, false, 1, 0⟩ } ∧
    (⟨13, 1, false, false, 1, 0⟩ : Account).is_writable = false ∧
    (⟨13, 1, false, false, 1, 0⟩ : Account).is_signer = false :=
  ⟨rfl, rfl, rfl⟩

/-- C2 amended: `TransferNftV1Accounts::try_from` binds the 8 slots in
the order asset, collection, authority, new_owner, payer, system
program, log sink, asset-protocol id: whenever binding succeeds, the
4th supplied account is the `new_owner` role (no checks) and the 5th
the `payer` role, which was checked writable and signer. -/
theorem claim_C2_amended_thm :
    ∀ (a0 a1 a2 a3 a4 a5 a6 a7 : Account) (r : TransferNftV1Accounts),
      TransferNftV1Accounts.try_from [a0, a1, a2, a3, a4, a5, a6, a7] = .ok r →
      r = { asset := a0, collection := toOptional a1, authority := toOptional a2,
            new_owner := a3, payer := a4, system_program := toOptional a5,
            log_wrapper := toOptional a6, mpl_core := a7 } ∧
      a4.is_writable = true ∧ a4.is_signer = true := by
  intro a0 a1 a2 a3 a4 a5 a6 a7 r h
  rw [transfer_chain_eq, chain_ok_iff] at h
  refine ⟨h.1, ?_, ?_⟩
  · exact (writable_check_ok a4).mp (h.2 (WritableAccount.check a4) (by simp))
  · exact (signer_check_ok a4).mp (h.2 (SignerAccount.check a4) (by simp))

/-- C2 witness: a fully valid Transfer list binds with the 4th account
as `new_owner` and the checked 5th account as `payer`. -/
theorem claim_C2_witness :
    TransferNftV1Accounts.try_from
        [⟨30, 1, false, true, 1, 0⟩, ⟨31, 1, false, true, 1, 0⟩,
         ⟨32, 1, true, false, 1, 0⟩, ⟨33, 1, false, false, 1, 0⟩,
         ⟨34, 1, true, true, 1, 0⟩, ⟨1, 1, false, false, 1, 0⟩,
         ⟨35, 1, false, false, 1, 0⟩, ⟨2, 3, false, false, 1, 0⟩] =
      .ok { asset := ⟨30, 1, false, true, 1, 0⟩,
            collection := some ⟨31, 1, false, true, 1, 0⟩,
            authority := some ⟨32, 1, true, false, 1, 0⟩,
            new_owner := ⟨33, 1, false, false, 1, 0⟩,
            payer := ⟨34, 1, true, true, 1, 0⟩,
            system_program := some ⟨1, 1, false, false, 1, 0⟩,
            log_wrapper := some ⟨35, 1, false, false, 1, 0⟩,
            mpl_core := ⟨2, 3, false, false, 1, 0⟩ } ∧
    ((⟨34, 1, true, true, 1, 0⟩ : Account).is_writable = true ∧
      (⟨34, 1, true, true, 1, 0⟩ : Account).is_signer = true) :=
  ⟨rfl,
   (claim_C2_amended_thm ⟨30, 1, false, true, 1, 0⟩ ⟨31, 1, false, true, 1, 0⟩
       ⟨32, 1, true, false, 1, 0⟩ ⟨33, 1, false, false, 1, 0⟩ ⟨34, 1, true, true, 1, 0⟩
       ⟨1, 1, false, false, 1, 0⟩ ⟨35, 1, false, false, 1, 0⟩ ⟨2, 3, false, false, 1, 0⟩
       { asset := ⟨30, 1, false, true, 1, 0⟩,
         collection := some ⟨31, 1, false, true, 1, 0⟩,
         authority := some ⟨32, 1, true, false, 1, 0⟩,
         new_owner := ⟨33, 1, false, false, 1, 0⟩,
         payer := ⟨34, 1, true, true, 1, 0⟩,
         system_program := some ⟨1, 1, false, false, 1, 0⟩,
         log_wrapper := some ⟨35, 1, false, false, 1, 0⟩,
         mpl_core := ⟨2, 3, false, false, 1, 0⟩ } rfl).2⟩

/-! ## Helper lemmas: codec -/

theorem ppure_stable (a : α) : PStable (ppure a) := by
  intro as v rs cs h
  unfold ppure at h ⊢
  obtain ⟨rfl, rfl⟩ := Prod.mk.injEq .. ▸ Option.some.injEq .. ▸ h
  rfl

theorem pfail_stable : PStable (pfail : Parser α) := by
  intro as v rs cs h
  cases h

theorem readByte_stable : PStable readByte := by
  intro as v rs cs h
  cases as with
  | nil => cases h
  | cons b as' =>
    unfold readByte at h ⊢
    obtain ⟨rfl, rfl⟩ := Prod.mk.injEq .. ▸ Option.some.injEq .. ▸ h
    rfl

theorem pbind_stable {p : Parser α} {f : α → Parser β} (hp : PStable p)
    (hf : ∀ a, PStable (f a)) : PStable (pbind p f) := by
  intro as v rs cs h
  unfold pbind at h ⊢
  cases hpa : p as with
  | none => rw [hpa] at h; cases h
  | some x =>
    obtain ⟨a, r⟩ := x
    rw [hpa] at h
    rw [hp as a r cs hpa]
    exact hf a r v rs cs h

theorem pbind_some {p : Parser α} {bs : List Nat} {a : α} {rs : List Nat}
    (h : p bs = some (a, rs)) (f : α → Parser β) : pbind p f bs = f a rs := by
  unfold pbind
  rw [h]

theorem readBytes_stable (n : Nat) : PStable (readBytes n) := by
  induction n with
  | zero => exact ppure_stable []
  | succ n ih =>
    exact pbind_stable readByte_stable fun b =>
      pbind_stable ih fun bs => ppure_stable (b :: bs)

theorem readU32_stable : PStable readU32 :=
  pbind_stable readByte_stable fun _ =>
  pbind_stable readByte_stable fun _ =>
  pbind_stable readByte_stable fun _ =>
  pbind_stable readByte_stable fun _ => ppure_stable _

theorem readOption_stable {p : Parser α} (hp : PStable p) :
    PStable (readOption p) := by
  refine pbind_stable readByte_stable fun t => ?_
  match t with
  | 0 => exact ppure_stable none
  | 1 => exact pbind_stable hp fun a => ppure_stable (some a)
  | (m + 2) => exact pfail_stable

theorem readCount_stable {p : Parser α} (hp : PStable p) (n : Nat) :
    PStable (readCount p n) := by
  induction n with
  | zero => exact ppure_stable []
  | succ n ih =>
    exact pbind_stable hp fun a => pbind_stable ih fun as => ppure_stable (a :: as)

theorem readVec_stable {p : Parser α} (hp : PStable p) : PStable (readVec p) :=
  pbind_stable readU32_stable (readCount_stable hp)

theorem readString_stable : PStable readString :=
  pbind_stable readU32_stable readBytes_stable

theorem readDataState_stable : PStable readDataState := by
  refine pbind_stable readByte_stable fun t => ?_
  match t with
  | 0 => exact ppure_stable _
  | 1 => exact ppure_stable _
  | (m + 2) => exact pfail_stable

theorem readPlugin_stable : PStable readPlugin := by
  refine pbind_stable readByte_stable fun b => ?_
  by_cases h : b < 256
  · simpa [readPlugin, h] using ppure_stable (⟨⟨b, h⟩⟩ : PluginAuthorityPair)
  · simpa [readPlugin, h] using pfail_stable

theorem readCreateData_stable : PStable readCreateData :=
  pbind_stable (readOption_stable readDataState_stable) fun _ =>
  pbind_stable readString_stable fun _ =>
  pbind_stable readString_stable fun _ =>
  pbind_stable (readOption_stable (readVec_stable readPlugin_stable)) fun _ =>
  ppure_stable _

theorem readUpdateData_stable : PStable readUpdateData :=
  pbind_stable (readOption_stable readString_stable) fun _ =>
  pbind_stable (readOption_stable readString_stable) fun _ =>
  ppure_stable _

theorem readInstructions_stable : PStable readInstructions := by
  refine pbind_stable readByte_stable fun t => ?_
  match t with
  | 0 => exact pbind_stable readCreateData_stable fun _ => ppure_stable _
  | 1 => exact pbind_stable readUpdateData_stable fun _ => ppure_stable _
  | 2 => exact ppure_stable _
  | (m + 3) => exact pfail_stable

theorem readBytes_enc (bs rest : List Nat) :
    readBytes bs.length (bs ++ rest) = some (bs, rest) := by
  induction bs with
  | nil => rfl
  | cons b bs ih =>
    simp only [List.length_cons, List.cons_append, readBytes, pbind, readByte, ih,
      ppure]

theorem readU32_enc (n : Nat) (rest : List Nat) (h : n < 2 ^ 32) :
    readU32 (encodeU32 n ++ rest) = some (n, rest) := by
  simp only [readU32, encodeU32, List.cons_append, List.nil_append, pbind,
    readByte, ppure, Option.some.injEq, Prod.mk.injEq, and_true]
  omega

theorem readString_enc (s rest : List Nat) (h : s.length < 2 ^ 32) :
    readString (encodeString s ++ rest) = some (s, rest) := by
  unfold readString encodeString
  rw [List.append_assoc]
  unfold pbind
  rw [readU32_enc s.length (s ++ rest) h]
  exact readBytes_enc s rest

theorem readOption_enc {p : Parser α} {enc : α → List Nat} (o : Option α)
    (rest : List Nat)
    (hp : ∀ a, o = some a → ∀ r, p (enc a ++ r) = some (a, r)) :
    readOption p (encodeOption enc o ++ rest) = some (o, rest) := by
  cases o with
  | none => rfl
  | some a =>
    show readOption p (1 :: (enc a ++ rest)) = some (some a, rest)
    unfold readOption
    rw [pbind_some (show readByte (1 :: (enc a ++ rest)) =
      some (1, enc a ++ rest) from rfl)]
    show pbind p (fun x => ppure (some x)) (enc a ++ rest) = some (some a, rest)
    rw [pbind_some (hp a rfl rest)]
    rfl

theorem readDataState_enc (d : DataState) (rest : List Nat) :
    readDataState (encodeDataState d ++ rest) = some (d, rest) := by
  cases d <;> rfl

theorem readPlugin_enc (p : PluginAuthorityPair) (rest : List Nat) :
    readPlugin (encodePlugin p ++ rest) = some (p, rest) := by
  obtain ⟨⟨b, hb⟩⟩ := p
  simp [readPlugin, encodePlugin, pbind, readByte, hb, ppure]

theorem readCount_enc (l : List PluginAuthorityPair) (rest : List Nat) :
    readCount readPlugin l.length (encodePluginList l ++ rest) = some (l, rest) := by
  induction l with
  | nil => rfl
  | cons p ps ih =>
    show readCount readPlugin (ps.length + 1)
      ((encodePlugin p ++ encodePluginList ps) ++ rest) = some (p :: ps, rest)
    unfold readCount
    rw [List.append_assoc, pbind_some (readPlugin_enc p (encodePluginList ps ++ rest)),
      pbind_some ih]
    rfl

theorem readVec_enc (l : List PluginAuthorityPair) (rest : List Nat)
    (h : l.length < 2 ^ 32) :
    readVec readPlugin (encodeVecPlugins l ++ rest) = some (l, rest) := by
  unfold readVec encodeVecPlugins pbind
  rw [List.append_assoc, readU32_enc l.length (encodePluginList l ++ rest) h]
  exact readCount_enc l rest

theorem readCreateData_enc (d : CreateNftV1InstructionData) (rest : List Nat)
    (h : wfCreateData d = true) :
    readCreateData (encodeCreateData d ++ rest) = some (d, rest) := by
  obtain ⟨ds, name, uri, ps⟩ := d
  simp only [wfCreateData, Bool.and_eq_true, decide_eq_true_eq] at h
  obtain ⟨⟨hname, huri⟩, hps⟩ := h
  unfold readCreateData encodeCreateData
  simp only
  rw [List.append_assoc, List.append_assoc, List.append_assoc,
    pbind_some (readOption_enc ds _ (fun a _ r => readDataState_enc a r)),
    pbind_some (readString_enc name _ hname),
    pbind_some (readString_enc uri _ huri),
    pbind_some (readOption_enc ps rest ?_)]
  · rfl
  · intro a ha r
    refine readVec_enc a r ?_
    rw [ha] at hps
    simpa using hps

theorem readUpdateData_enc (d : UpdateNftV1InstructionData) (rest : List Nat)
    (h : wfUpdateData d = true) :
    readUpdateData (encodeUpdateData d ++ rest) = some (d, rest) := by
  obtain ⟨nn, nu⟩ := d
  simp only [wfUpdateData, Bool.and_eq_true] at h
  obtain ⟨hn, hu⟩ := h
  unfold readUpdateData encodeUpdateData
  simp only
  rw [List.append_assoc, pbind_some (readOption_enc nn _ ?_),
    pbind_some (readOption_enc nu rest ?_)]
  · rfl
  · intro a ha r
    refine readString_enc a r ?_
    rw [ha] at hu
    simpa using hu
  · intro a ha r
    refine readString_enc a r ?_
    rw [ha] at hn
    simpa using hn

theorem readInstructions_enc (i : Instructions) (rest : List Nat)
    (h : wfInstructions i = true) :
    readInstructions (encodeInstructions i ++ rest) = some (i, rest) := by
  cases i with
  | CreateNftV1 d =>
    show readInstructions (0 :: (encodeCreateData d ++ rest)) =
      some (Instructions.CreateNftV1 d, rest)
    unfold readInstructions
    rw [pbind_some (show readByte (0 :: (encodeCreateData d ++ rest)) =
      some (0, encodeCreateData d ++ rest) from rfl)]
    show pbind readCreateData (fun x => ppure (Instructions.CreateNftV1 x))
      (encodeCreateData d ++ rest) = some (Instructions.CreateNftV1 d, rest)
    rw [pbind_some (readCreateData_enc d rest h)]
    rfl
  | UpdateNftV1 d =>
    show readInstructions (1 :: (encodeUpdateData d ++ rest)) =
      some (Instructions.UpdateNftV1 d, rest)
    unfold readInstructions
    rw [pbind_some (show readByte (1 :: (encodeUpdateData d ++ rest)) =
      some (1, encodeUpdateData d ++ rest) from rfl)]
    show pbind readUpdateData (fun x => ppure (Instructions.UpdateNftV1 x))
      (encodeUpdateData d ++ rest) = some (Instructions.UpdateNftV1 d, rest)
    rw [pbind_some (readUpdateData_enc d rest h)]
    rfl
  | TransferNftV1 => rfl

/-- `decodeInstructions` propagates through `process_entrypoint`: a
decode failure is the instruction's failure, before any binding. -/
theorem entrypoint_decode_err (accounts : List Account) (bs : List Nat)
    (e : ProgramError) (h : decodeInstructions bs = .error e) :
    process_entrypoint accounts bs = .error e := by
  unfold process_entrypoint
  rw [h]
  rfl

/-! ## Claims: codec, defaults, entry point -/

/-- C6: `CreateNftV1::process` builds the outbound CreateV1 invocation
with the account-resident data state when the payload's `data_state` is
absent and with the empty plugin list when the plugin list is absent;
present values (and `name`/`uri`) are forwarded unchanged. -/
theorem claim_C6_create_invocation_defaults :
    ∀ (accs : CreateNftV1Accounts) (d : CreateNftV1InstructionData),
      (d.data_state = none →
        (CreateNftV1.process ⟨accs, d⟩).data_state = DataState.AccountState) ∧
      (∀ s, d.data_state = some s →
        (CreateNftV1.process ⟨accs, d⟩).data_state = s) ∧
      (d.plugins = none → (CreateNftV1.process ⟨accs, d⟩).plugins = []) ∧
      (∀ ps, d.plugins = some ps →
        (CreateNftV1.process ⟨accs, d⟩).plugins = ps) ∧
      (CreateNftV1.process ⟨accs, d⟩).name = d.name ∧
      (CreateNftV1.process ⟨accs, d⟩).uri = d.uri := by
  intro accs d
  refine ⟨fun h => ?_, fun s h => ?_, fun h => ?_, fun ps h => ?_, rfl, rfl⟩
  all_goals simp [CreateNftV1.process, h]

/-- C6 witness: a payload omitting both optional fields yields an
invocation with the resident data state and the empty plugin list. -/
theorem claim_C6_witness :
    ((⟨none, [97], [98], none⟩ : CreateNftV1InstructionData).data_state = none ∧
      (⟨none, [97], [98], none⟩ : CreateNftV1InstructionData).plugins = none) ∧
    (CreateNftV1.process
        ⟨⟨⟨10, 1, false, true, 1, 0⟩, none, none, ⟨11, 1, true, true, 1, 0⟩, none,
          none, ⟨1, 1, false, false, 1, 0⟩, none, ⟨2, 3, false, false, 1, 0⟩⟩,
         ⟨none, [97], [98], none⟩⟩).data_state = DataState.AccountState ∧
    (CreateNftV1.process
        ⟨⟨⟨10, 1, false, true, 1, 0⟩, none, none, ⟨11, 1, true, true, 1, 0⟩, none,
          none, ⟨1, 1, false, false, 1, 0⟩, none, ⟨2, 3, false, false, 1, 0⟩⟩,
         ⟨none, [97], [98], none⟩⟩).plugins = [] :=
  ⟨⟨rfl, rfl⟩,
   (claim_C6_create_invocation_defaults
       ⟨⟨10, 1, false, true, 1, 0⟩, none, none, ⟨11, 1, true, true, 1, 0⟩, none,
        none, ⟨1, 1, false, false, 1, 0⟩, none, ⟨2, 3, false, false, 1, 0⟩⟩
       ⟨none, [97], [98], none⟩).1 rfl,
   (claim_C6_create_invocation_defaults
       ⟨⟨10, 1, false, true, 1, 0⟩, none, none, ⟨11, 1, true, true, 1, 0⟩, none,
        none, ⟨1, 1, false, false, 1, 0⟩, none, ⟨2, 3, false, false, 1, 0⟩⟩
       ⟨none, [97], [98], none⟩).2.2.1 rfl⟩

/-- C7: decoding the encoding of any `Instructions` value (with wire-
representable sequence lengths, i.e. below 2^32) yields the value
back. -/
theorem claim_C7_decode_encode_roundtrip :
    ∀ i : Instructions, wfInstructions i = true →
      decodeInstructions (encodeInstructions i) = .ok i := by
  intro i h
  unfold decodeInstructions
  have henc := readInstructions_enc i [] h
  rw [List.append_nil] at henc
  rw [henc]

/-- C7 witness: a Create payload exercising every field shape
round-trips. -/
theorem claim_C7_witness :
    wfInstructions
        (.CreateNftV1 ⟨some .LedgerState, [104, 105], [117, 114],
          some [⟨7⟩, ⟨0⟩]⟩) = true ∧
      decodeInstructions (encodeInstructions
          (.CreateNftV1 ⟨some .LedgerState, [104, 105], [117, 114],
            some [⟨7⟩, ⟨0⟩]⟩)) =
        .ok (.CreateNftV1 ⟨some .LedgerState, [104, 105], [117, 114],
          some [⟨7⟩, ⟨0⟩]⟩) :=
  ⟨by decide,
   claim_C7_decode_encode_roundtrip
     (.CreateNftV1 ⟨some .LedgerState, [104, 105], [117, 114], some [⟨7⟩, ⟨0⟩]⟩)
     (by decide)⟩

/-- C8: decode rejects (with the borsh error, and the instruction fails
before any binding) every payload whose leading discriminant selects no
known variant, and every strict truncation of a valid encoding. -/
theorem claim_C8_malformed_payload_rejected :
    (∀ b bs, b ≠ 0 → b ≠ 1 → b ≠ 2 →
      decodeInstructions (b :: bs) = .error .BorshIoError ∧
      ∀ accounts, process_entrypoint accounts (b :: bs) = .error .BorshIoError) ∧
    (∀ i, wfInstructions i = true → ∀ k, k < (encodeInstructions i).length →
      decodeInstructions ((encodeInstructions i).take k) = .error .BorshIoError ∧
      ∀ accounts, process_entrypoint accounts ((encodeInstructions i).take k) =
        .error .BorshIoError) := by
  constructor
  · intro b bs h0 h1 h2
    obtain ⟨m, rfl⟩ : ∃ m, b = m + 3 := ⟨b - 3, by omega⟩
    exact ⟨rfl, fun accounts => entrypoint_decode_err accounts _ _ rfl⟩
  · intro i h k hk
    have hd : decodeInstructions ((encodeInstructions i).take k) =
        .error .BorshIoError := by
      unfold decodeInstructions
      cases hp : readInstructions ((encodeInstructions i).take k) with
      | none => rfl
      | some x =>
        obtain ⟨v, rs⟩ := x
        cases rs with
        | cons r rs' => rfl
        | nil =>
          exfalso
          have hst := readInstructions_stable ((encodeInstructions i).take k) v []
            ((encodeInstructions i).drop k) hp
          rw [List.take_append_drop] at hst
          have henc := readInstructions_enc i [] h
          rw [List.append_nil] at henc
          rw [henc] at hst
          have hdrop : (encodeInstructions i).drop k = [] := by
            have := (Option.some.injEq .. ▸ hst :
              (i, ([] : List Nat)) = (v, [] ++ (encodeInstructions i).drop k))
            simpa using congrArg Prod.snd this
          have hlen : (encodeInstructions i).length - k = 0 := by
            simpa using congrArg List.length hdrop
          omega
    exact ⟨hd, fun accounts => entrypoint_decode_err accounts _ _ hd⟩

/-- C8 witness: discriminant 9 is rejected, and so is the valid Create
encoding of the C7 witness cut one byte short. -/
theorem claim_C8_witness :
    ((9 : Nat) ≠ 0 ∧ (9 : Nat) ≠ 1 ∧ (9 : Nat) ≠ 2 ∧
      decodeInstructions [9] = .error .BorshIoError) ∧
    (wfInstructions (.UpdateNftV1 ⟨some [120], none⟩) = true ∧
      6 < (encodeInstructions (.UpdateNftV1 ⟨some [120], none⟩)).length ∧
      decodeInstructions
          ((encodeInstructions (.UpdateNftV1 ⟨some [120], none⟩)).take 6) =
        .error .BorshIoError) :=
  ⟨⟨by decide, by decide, by decide,
    (claim_C8_malformed_payload_rejected.1 9 [] (by decide) (by decide)
      (by decide)).1⟩,
   ⟨by decide, by decide,
    (claim_C8_malformed_payload_rejected.2 (.UpdateNftV1 ⟨some [120], none⟩)
      (by decide) 6 (by decide)).1⟩⟩

/-- C10: any payload consisting of a complete valid encoding followed by
at least one trailing byte is rejected: borsh `try_from_slice` requires
the parse to consume the entire input. -/
theorem claim_C10_trailing_bytes_rejected :
    ∀ (i : Instructions) (s : List Nat), wfInstructions i = true → s ≠ [] →
      decodeInstructions (encodeInstructions i ++ s) = .error .BorshIoError ∧
      ∀ accounts, process_entrypoint accounts (encodeInstructions i ++ s) =
        .error .BorshIoError := by
  intro i s h hs
  have hd : decodeInstructions (encodeInstructions i ++ s) =
      .error .BorshIoError := by
    unfold decodeInstructions
    rw [readInstructions_enc i s h]
    cases s with
    | nil => exact absurd rfl hs
    | cons a s' => rfl
  exact ⟨hd, fun accounts => entrypoint_decode_err accounts _ _ hd⟩

/-- C10 witness: the 1-byte Transfer encoding followed by a zero byte is
rejected. -/
theorem claim_C10_witness :
    wfInstructions .TransferNftV1 = true ∧ ([0] : List Nat) ≠ [] ∧
      decodeInstructions (encodeInstructions .TransferNftV1 ++ [0]) =
        .error .BorshIoError :=
  ⟨by decide, by decide,
   (claim_C10_trailing_bytes_rejected .TransferNftV1 [0] (by decide)
     (by decide)).1⟩

end MplCoreGateway
